import Mathlib

/-!
Shallow embedding of the CarbonTrackPro emissions calculator:
the factor tables of src/emission_factors.py, the eight calculator
functions of src/ghg_protocol.py, and the aggregation block of
src/app.py (lines 367-454).  Python floats are modelled as exact
rationals; Python dicts keyed by strings are modelled as functions
String → Option ℚ, with dict.get(k, d) as dictGet and d[k] as dictAt.
-/

namespace CarbonTrack

/-- Python str.lower for a single character, as it acts on the ASCII
selector strings used by the app (maps A-Z to a-z, leaves the rest). -/
def pyLowerChar (c : Char) : Char :=
  if 'A' ≤ c ∧ c ≤ 'Z' then Char.ofNat (c.toNat + 32) else c

/-- Python s.replace(" ", "_"): the pattern is a single character, so the
left-to-right scan is a pointwise map. -/
def underscoreSpaces : List Char → List Char :=
  List.map (fun c => if c = ' ' then '_' else c)

/-- Python s.replace(" & ", "_"): left-to-right, non-overlapping. -/
def replaceAmp : List Char → List Char
  | ' ' :: '&' :: ' ' :: rest => '_' :: replaceAmp rest
  | c :: rest => c :: replaceAmp rest
  | [] => []

/-- Python grid_region.lower().replace(" ", "_") from
calculate_electricity_emissions (src/ghg_protocol.py line 68). -/
def region_key (s : String) : String :=
  String.mk (underscoreSpaces (s.data.map pyLowerChar))

/-- Python industry.lower().replace(" & ", "_").replace(" ", "_") from
calculate_purchased_goods_emissions (src/ghg_protocol.py line 173). -/
def industry_key (s : String) : String :=
  String.mk (underscoreSpaces (replaceAmp (s.data.map pyLowerChar)))

/-- Python dict.get(key, default). -/
def dictGet (t : String → Option ℚ) (k : String) (d : ℚ) : ℚ :=
  (t k).getD d

/-- Python dict[key].  Every subscript access in the source is at a key
present in the dict, so the out-of-domain value 0 is never returned. -/
def dictAt (t : String → Option ℚ) (k : String) : ℚ :=
  (t k).getD 0

/-- STATIONARY_COMBUSTION table (src/emission_factors.py lines 13-18),
tonnes CO2e per unit. -/
def STATIONARY_COMBUSTION : String → Option ℚ
  | "natural_gas" => some (195/100000)
  | "diesel" => some (273/100000)
  | "propane" => some (153/100000)
  | "fuel_oil" => some (281/100000)
  | _ => none

/-- MOBILE_COMBUSTION table (src/emission_factors.py lines 21-25),
tonnes CO2e per liter. -/
def MOBILE_COMBUSTION : String → Option ℚ
  | "gasoline" => some (234/100000)
  | "diesel" => some (267/100000)
  | "jet_fuel" => some (259/100000)
  | _ => none

/-- REFRIGERANTS global-warming potentials (src/emission_factors.py
lines 29-35). -/
def REFRIGERANTS : String → Option ℚ
  | "R-134a" => some 1430
  | "R-410A" => some 2088
  | "R-404A" => some 3922
  | "R-22" => some 1810
  | "None" => some 0
  | _ => none

/-- ELECTRICITY factors (src/emission_factors.py lines 38-54),
tonnes CO2e per kWh. -/
def ELECTRICITY : String → Option ℚ
  | "northeast_us" => some (254/1000000)
  | "midwest_us" => some (481/1000000)
  | "south_us" => some (427/1000000)
  | "west_us" => some (221/1000000)
  | "western_europe" => some (276/1000000)
  | "eastern_europe" => some (483/1000000)
  | "asia" => some (562/1000000)
  | "renewable" => some (16/1000000)
  | "mixed" => some (320/1000000)
  | "default" => some (431/1000000)
  | _ => none

/-- BUSINESS_TRAVEL factors (src/emission_factors.py lines 57-63). -/
def BUSINESS_TRAVEL : String → Option ℚ
  | "air_short_haul" => some (258/1000000)
  | "air_medium_haul" => some (168/1000000)
  | "air_long_haul" => some (153/1000000)
  | "car_rental" => some (348/1000000)
  | "hotel_stay" => some (21/1000)
  | _ => none

/-- COMMUTING factors (src/emission_factors.py lines 66-72),
tonnes CO2e per mile. -/
def COMMUTING : String → Option ℚ
  | "car" => some (348/1000000)
  | "carpool" => some (162/1000000)
  | "public_transit" => some (96/1000000)
  | "walking_biking" => some 0
  | "wfh" => some (32/1000000)
  | _ => none

/-- WASTE factors (src/emission_factors.py lines 75-80),
tonnes CO2e per ton. -/
def WASTE : String → Option ℚ
  | "landfill" => some (458/1000)
  | "recycled" => some (21/1000)
  | "composted" => some (23/1000)
  | "incinerated" => some (136/10000)
  | _ => none

/-- PURCHASED_GOODS factors (src/emission_factors.py lines 84-93),
tonnes CO2e per million USD. -/
def PURCHASED_GOODS : String → Option ℚ
  | "manufacturing" => some 563
  | "technology" => some 386
  | "retail" => some 274
  | "healthcare" => some 221
  | "education" => some 176
  | "financial_services" => some 143
  | "food_beverage" => some 498
  | "default" => some 412
  | _ => none

/-- calculate_stationary_combustion (src/ghg_protocol.py lines 4-17). -/
def calculate_stationary_combustion (natural_gas diesel propane fuel_oil : ℚ) : ℚ :=
  let natural_gas_emissions := natural_gas * dictAt STATIONARY_COMBUSTION "natural_gas"
  let diesel_emissions := diesel * dictAt STATIONARY_COMBUSTION "diesel"
  let propane_emissions := propane * dictAt STATIONARY_COMBUSTION "propane"
  let fuel_oil_emissions := fuel_oil * dictAt STATIONARY_COMBUSTION "fuel_oil"
  natural_gas_emissions + diesel_emissions + propane_emissions + fuel_oil_emissions

/-- calculate_mobile_combustion (src/ghg_protocol.py lines 19-30). -/
def calculate_mobile_combustion (gasoline diesel jet_fuel : ℚ) : ℚ :=
  let gasoline_emissions := gasoline * dictAt MOBILE_COMBUSTION "gasoline"
  let diesel_emissions := diesel * dictAt MOBILE_COMBUSTION "diesel"
  let jet_fuel_emissions := jet_fuel * dictAt MOBILE_COMBUSTION "jet_fuel"
  gasoline_emissions + diesel_emissions + jet_fuel_emissions

/-- calculate_refrigerant_emissions (src/ghg_protocol.py lines 32-47). -/
def calculate_refrigerant_emissions (refrigerant_type : String) (amount : ℚ) : ℚ :=
  if refrigerant_type = "None" ∨ amount = 0 then 0
  else amount * dictGet REFRIGERANTS refrigerant_type 0 / 1000

/-- calculate_electricity_emissions (src/ghg_protocol.py lines 49-71). -/
def calculate_electricity_emissions (electricity : ℚ)
    (grid_region electricity_source : String) : ℚ :=
  let emissions_factor :=
    if electricity_source = "Renewable Energy" then
      dictAt ELECTRICITY "renewable"
    else if electricity_source = "Mixed Sources" then
      dictAt ELECTRICITY "mixed"
    else
      dictGet ELECTRICITY (region_key grid_region) (dictAt ELECTRICITY "default")
  electricity * emissions_factor / 1000

/-- calculate_business_travel_emissions (src/ghg_protocol.py lines 73-96). -/
def calculate_business_travel_emissions
    (air_travel_short air_travel_medium air_travel_long car_rental hotel_stays : ℚ) : ℚ :=
  let air_short_emissions := air_travel_short * dictAt BUSINESS_TRAVEL "air_short_haul"
  let air_medium_emissions := air_travel_medium * dictAt BUSINESS_TRAVEL "air_medium_haul"
  let air_long_emissions := air_travel_long * dictAt BUSINESS_TRAVEL "air_long_haul"
  let car_rental_emissions := car_rental * dictAt BUSINESS_TRAVEL "car_rental"
  let hotel_emissions := hotel_stays * dictAt BUSINESS_TRAVEL "hotel_stay"
  air_short_emissions + air_medium_emissions + air_long_emissions +
    car_rental_emissions + hotel_emissions

/-- Mode-percentage dictionary passed to the commuting calculator
(keys car, carpool, public_transit, walking_biking, wfh). -/
structure ModeBreakdown where
  car : ℚ
  carpool : ℚ
  public_transit : ℚ
  walking_biking : ℚ
  wfh : ℚ

/-- mode_mapping dict inside calculate_employee_commuting_emissions
(src/ghg_protocol.py lines 127-133). -/
def mode_mapping : String → Option String
  | "Car (Single Occupancy)" => some "car"
  | "Carpool" => some "carpool"
  | "Public Transit" => some "public_transit"
  | "Walking/Biking" => some "walking_biking"
  | "Work from Home" => some "wfh"
  | _ => none

/-- calculate_employee_commuting_emissions (src/ghg_protocol.py lines
98-138).  The Python guard is "commute_mode == Mixed and mode_breakdown":
a dict is falsy when empty, so none here models both Python None and the
empty dict, either of which sends execution to the single-mode branch. -/
def calculate_employee_commuting_emissions
    (avg_commute_distance num_employees commute_days_per_year : ℚ)
    (commute_mode : String) (mode_breakdown : Option ModeBreakdown) : ℚ :=
  let total_annual_miles := avg_commute_distance * 2 * num_employees * commute_days_per_year
  match mode_breakdown with
  | some mb =>
      if commute_mode = "Mixed" then
        let car_emissions := total_annual_miles * mb.car * dictAt COMMUTING "car"
        let carpool_emissions := total_annual_miles * mb.carpool * dictAt COMMUTING "carpool"
        let transit_emissions :=
          total_annual_miles * mb.public_transit * dictAt COMMUTING "public_transit"
        let walking_biking_emissions :=
          total_annual_miles * mb.walking_biking * dictAt COMMUTING "walking_biking"
        let wfh_emissions := total_annual_miles * mb.wfh * dictAt COMMUTING "wfh"
        car_emissions + carpool_emissions + transit_emissions +
          walking_biking_emissions + wfh_emissions
      else
        total_annual_miles * dictAt COMMUTING ((mode_mapping commute_mode).getD "car")
  | none =>
      total_annual_miles * dictAt COMMUTING ((mode_mapping commute_mode).getD "car")

/-- calculate_waste_emissions (src/ghg_protocol.py lines 140-159). -/
def calculate_waste_emissions
    (landfill_waste recycled_waste composted_waste incinerated_waste : ℚ) : ℚ :=
  let landfill_emissions := landfill_waste * dictAt WASTE "landfill"
  let recycled_emissions := recycled_waste * dictAt WASTE "recycled"
  let composted_emissions := composted_waste * dictAt WASTE "composted"
  let incinerated_emissions := incinerated_waste * dictAt WASTE "incinerated"
  landfill_emissions + recycled_emissions + composted_emissions + incinerated_emissions

/-- calculate_purchased_goods_emissions (src/ghg_protocol.py lines 161-179). -/
def calculate_purchased_goods_emissions (purchased_goods : ℚ) (industry : String) : ℚ :=
  let industry_factor :=
    dictGet PURCHASED_GOODS (industry_key industry) (dictAt PURCHASED_GOODS "default")
  purchased_goods / 1000000 * industry_factor

/-- Activity data collected by the input form of src/app.py: one field per
numeric quantity or categorical selector passed to the calculators.  The
form constrains every numeric field to be non-negative (min_value=0 on
the number inputs, 0-100 sliders for the mode percentages). -/
structure ActivityInput where
  natural_gas : ℚ
  diesel : ℚ
  propane : ℚ
  fuel_oil : ℚ
  gasoline : ℚ
  diesel_vehicles : ℚ
  jet_fuel : ℚ
  refrigerant_type : String
  refrigerant_amount : ℚ
  electricity : ℚ
  grid_region : String
  electricity_source : String
  air_travel_short : ℚ
  air_travel_medium : ℚ
  air_travel_long : ℚ
  car_rental : ℚ
  hotel_stays : ℚ
  avg_commute_distance : ℚ
  num_employees : ℚ
  commute_days_per_year : ℚ
  commute_mode : String
  car_percent : ℚ
  carpool_percent : ℚ
  public_transit_percent : ℚ
  walking_biking_percent : ℚ
  wfh_percent : ℚ
  landfill_waste : ℚ
  recycled_waste : ℚ
  composted_waste : ℚ
  incinerated_waste : ℚ
  purchased_goods : ℚ
  industry : String

/-- EmissionsResult stored in session state by src/app.py lines 437-454:
the total, the by-scope breakdown (three values) and the by-category
breakdown (eight values). -/
structure EmissionsResult where
  scope1_stationary : ℚ
  scope1_mobile : ℚ
  scope1_refrigerants : ℚ
  scope2_electricity : ℚ
  scope3_business_travel : ℚ
  scope3_employee_commuting : ℚ
  scope3_waste : ℚ
  scope3_purchased_goods : ℚ
  scope1_total : ℚ
  scope2_total : ℚ
  scope3_total : ℚ
  total_emissions : ℚ

/-- Calculation block behind the Calculate button (src/app.py lines
367-454), including the mode_breakdown dictionary built at lines 409-415
and the aggregation at lines 430-435. -/
def calculate_footprint (i : ActivityInput) : EmissionsResult :=
  let scope1_stationary :=
    calculate_stationary_combustion i.natural_gas i.diesel i.propane i.fuel_oil
  let scope1_mobile :=
    calculate_mobile_combustion i.gasoline i.diesel_vehicles i.jet_fuel
  let scope1_refrigerants :=
    calculate_refrigerant_emissions i.refrigerant_type i.refrigerant_amount
  let scope2_electricity :=
    calculate_electricity_emissions i.electricity i.grid_region i.electricity_source
  let scope3_business_travel :=
    calculate_business_travel_emissions i.air_travel_short i.air_travel_medium
      i.air_travel_long i.car_rental i.hotel_stays
  let mode_breakdown : ModeBreakdown :=
    { car := if i.commute_mode = "Mixed" then i.car_percent / 100
        else if i.commute_mode = "Car (Single Occupancy)" then 1 else 0
      carpool := if i.commute_mode = "Mixed" then i.carpool_percent / 100
        else if i.commute_mode = "Carpool" then 1 else 0
      public_transit := if i.commute_mode = "Mixed" then i.public_transit_percent / 100
        else if i.commute_mode = "Public Transit" then 1 else 0
      walking_biking := if i.commute_mode = "Mixed" then i.walking_biking_percent / 100
        else if i.commute_mode = "Walking/Biking" then 1 else 0
      wfh := if i.commute_mode = "Mixed" then i.wfh_percent / 100
        else if i.commute_mode = "Work from Home" then 1 else 0 }
  let scope3_employee_commuting :=
    calculate_employee_commuting_emissions i.avg_commute_distance i.num_employees
      i.commute_days_per_year i.commute_mode (some mode_breakdown)
  let scope3_waste :=
    calculate_waste_emissions i.landfill_waste i.recycled_waste i.composted_waste
      i.incinerated_waste
  let scope3_purchased_goods :=
    calculate_purchased_goods_emissions i.purchased_goods i.industry
  let scope1_total := scope1_stationary + scope1_mobile + scope1_refrigerants
  let scope2_total := scope2_electricity
  let scope3_total := scope3_business_travel + scope3_employee_commuting +
    scope3_waste + scope3_purchased_goods
  let total_emissions := scope1_total + scope2_total + scope3_total
  { scope1_stationary := scope1_stationary
    scope1_mobile := scope1_mobile
    scope1_refrigerants := scope1_refrigerants
    scope2_electricity := scope2_electricity
    scope3_business_travel := scope3_business_travel
    scope3_employee_commuting := scope3_employee_commuting
    scope3_waste := scope3_waste
    scope3_purchased_goods := scope3_purchased_goods
    scope1_total := scope1_total
    scope2_total := scope2_total
    scope3_total := scope3_total
    total_emissions := total_emissions }

/-- Numeric fields of an ActivityInput are all non-negative, matching the
min_value=0 constraints of the input form. -/
def NonnegInput (i : ActivityInput) : Prop :=
  0 ≤ i.natural_gas ∧ 0 ≤ i.diesel ∧ 0 ≤ i.propane ∧ 0 ≤ i.fuel_oil ∧
  0 ≤ i.gasoline ∧ 0 ≤ i.diesel_vehicles ∧ 0 ≤ i.jet_fuel ∧
  0 ≤ i.refrigerant_amount ∧ 0 ≤ i.electricity ∧
  0 ≤ i.air_travel_short ∧ 0 ≤ i.air_travel_medium ∧ 0 ≤ i.air_travel_long ∧
  0 ≤ i.car_rental ∧ 0 ≤ i.hotel_stays ∧
  0 ≤ i.avg_commute_distance ∧ 0 ≤ i.num_employees ∧ 0 ≤ i.commute_days_per_year ∧
  0 ≤ i.car_percent ∧ 0 ≤ i.carpool_percent ∧ 0 ≤ i.public_transit_percent ∧
  0 ≤ i.walking_biking_percent ∧ 0 ≤ i.wfh_percent ∧
  0 ≤ i.landfill_waste ∧ 0 ≤ i.recycled_waste ∧ 0 ≤ i.composted_waste ∧
  0 ≤ i.incinerated_waste ∧ 0 ≤ i.purchased_goods

/-- Aggregation invariant claimed for every EmissionsResult: the total
equals the sum of the scopes, the scopes decompose into their categories,
the total equals the sum of the eight categories, and every stored value
is non-negative. -/
def AggregationInvariant (r : EmissionsResult) : Prop :=
  r.scope1_total = r.scope1_stationary + r.scope1_mobile + r.scope1_refrigerants ∧
  r.scope2_total = r.scope2_electricity ∧
  r.scope3_total = r.scope3_business_travel + r.scope3_employee_commuting +
    r.scope3_waste + r.scope3_purchased_goods ∧
  r.total_emissions = r.scope1_total + r.scope2_total + r.scope3_total ∧
  r.total_emissions = r.scope1_stationary + r.scope1_mobile + r.scope1_refrigerants +
    r.scope2_electricity + r.scope3_business_travel + r.scope3_employee_commuting +
    r.scope3_waste + r.scope3_purchased_goods ∧
  0 ≤ r.scope1_stationary ∧ 0 ≤ r.scope1_mobile ∧ 0 ≤ r.scope1_refrigerants ∧
  0 ≤ r.scope2_electricity ∧ 0 ≤ r.scope3_business_travel ∧
  0 ≤ r.scope3_employee_commuting ∧ 0 ≤ r.scope3_waste ∧
  0 ≤ r.scope3_purchased_goods ∧
  0 ≤ r.scope1_total ∧ 0 ≤ r.scope2_total ∧ 0 ≤ r.scope3_total ∧
  0 ≤ r.total_emissions

/-- Concrete activity record used to instantiate the universally
quantified statements: mixed commuting with a 30/20/30/10/10 split,
grid electricity in the Northeast US, R-134a refrigerant. -/
def exampleInput : ActivityInput :=
  { natural_gas := 1000
    diesel := 200
    propane := 50
    fuel_oil := 10
    gasoline := 400
    diesel_vehicles := 100
    jet_fuel := 0
    refrigerant_type := "R-134a"
    refrigerant_amount := 5
    electricity := 120000
    grid_region := "Northeast US"
    electricity_source := "Grid Electricity"
    air_travel_short := 2000
    air_travel_medium := 5000
    air_travel_long := 8000
    car_rental := 900
    hotel_stays := 40
    avg_commute_distance := 10
    num_employees := 100
    commute_days_per_year := 230
    commute_mode := "Mixed"
    car_percent := 30
    carpool_percent := 20
    public_transit_percent := 30
    walking_biking_percent := 10
    wfh_percent := 10
    landfill_waste := 12
    recycled_waste := 6
    composted_waste := 3
    incinerated_waste := 1
    purchased_goods := 2500000
    industry := "Technology" }

/-- Every value stored in the ELECTRICITY table is non-negative. -/
theorem ELECTRICITY_values_nonneg (k : String) (v : ℚ) (h : ELECTRICITY k = some v) :
    0 ≤ v := by
  unfold ELECTRICITY at h
  split at h <;> (cases h) <;> norm_num

/-- Every value stored in the REFRIGERANTS table is non-negative. -/
theorem REFRIGERANTS_values_nonneg (k : String) (v : ℚ) (h : REFRIGERANTS k = some v) :
    0 ≤ v := by
  unfold REFRIGERANTS at h
  split at h <;> (cases h) <;> norm_num

/-- Every value stored in the COMMUTING table is non-negative. -/
theorem COMMUTING_values_nonneg (k : String) (v : ℚ) (h : COMMUTING k = some v) :
    0 ≤ v := by
  unfold COMMUTING at h
  split at h <;> (cases h) <;> norm_num

/-- Every value stored in the PURCHASED_GOODS table is non-negative. -/
theorem PURCHASED_GOODS_values_nonneg (k : String) (v : ℚ) (h : PURCHASED_GOODS k = some v) :
    0 ≤ v := by
  unfold PURCHASED_GOODS at h
  split at h <;> (cases h) <;> norm_num

/-- A dict.get with a non-negative default over a table of non-negative
values is non-negative. -/
theorem dictGet_nonneg (t : String → Option ℚ) (k : String) (d : ℚ)
    (ht : ∀ k v, t k = some v → 0 ≤ v) (hd : 0 ≤ d) : 0 ≤ dictGet t k d := by
  unfold dictGet
  cases h : t k with
  | none => simpa using hd
  | some v => simpa using ht k v h

/-- A dict subscript over a table of non-negative values is non-negative. -/
theorem dictAt_nonneg (t : String → Option ℚ) (k : String)
    (ht : ∀ k v, t k = some v → 0 ≤ v) : 0 ≤ dictAt t k :=
  dictGet_nonneg t k 0 ht le_rfl

/-- Stationary combustion is non-negative on non-negative inputs. -/
theorem calculate_stationary_combustion_nonneg (a b c d : ℚ)
    (ha : 0 ≤ a) (hb : 0 ≤ b) (hc : 0 ≤ c) (hd : 0 ≤ d) :
    0 ≤ calculate_stationary_combustion a b c d := by
  have e : calculate_stationary_combustion a b c d
      = a * (195/100000) + b * (273/100000) + c * (153/100000) + d * (281/100000) := rfl
  rw [e]; positivity

/-- Mobile combustion is non-negative on non-negative inputs. -/
theorem calculate_mobile_combustion_nonneg (a b c : ℚ)
    (ha : 0 ≤ a) (hb : 0 ≤ b) (hc : 0 ≤ c) :
    0 ≤ calculate_mobile_combustion a b c := by
  have e : calculate_mobile_combustion a b c
      = a * (234/100000) + b * (267/100000) + c * (259/100000) := rfl
  rw [e]; positivity

/-- Refrigerant emissions are non-negative on a non-negative amount,
whatever the refrigerant type string. -/
theorem calculate_refrigerant_emissions_nonneg (t : String) (a : ℚ) (ha : 0 ≤ a) :
    0 ≤ calculate_refrigerant_emissions t a := by
  unfold calculate_refrigerant_emissions
  split
  · norm_num
  · have hg : 0 ≤ dictGet REFRIGERANTS t 0 :=
      dictGet_nonneg _ _ _ REFRIGERANTS_values_nonneg le_rfl
    positivity

/-- Electricity emissions are non-negative on a non-negative kWh amount,
whatever the region and source strings. -/
theorem calculate_electricity_emissions_nonneg (kwh : ℚ) (r src : String)
    (h : 0 ≤ kwh) : 0 ≤ calculate_electricity_emissions kwh r src := by
  simp only [calculate_electricity_emissions]
  split_ifs
  · have e : dictAt ELECTRICITY "renewable" = 16/1000000 := rfl
    rw [e]; positivity
  · have e : dictAt ELECTRICITY "mixed" = 320/1000000 := rfl
    rw [e]; positivity
  · have hg : 0 ≤ dictGet ELECTRICITY (region_key r) (dictAt ELECTRICITY "default") :=
      dictGet_nonneg _ _ _ ELECTRICITY_values_nonneg (by norm_num [dictAt, ELECTRICITY])
    positivity

/-- Business travel emissions are non-negative on non-negative inputs. -/
theorem calculate_business_travel_emissions_nonneg (a b c d e : ℚ)
    (ha : 0 ≤ a) (hb : 0 ≤ b) (hc : 0 ≤ c) (hd : 0 ≤ d) (he : 0 ≤ e) :
    0 ≤ calculate_business_travel_emissions a b c d e := by
  have eq : calculate_business_travel_emissions a b c d e
      = a * (258/1000000) + b * (168/1000000) + c * (153/1000000) +
        d * (348/1000000) + e * (21/1000) := rfl
  rw [eq]; positivity

/-- Commuting emissions are non-negative on non-negative numeric inputs
and a non-negative breakdown, whatever the mode string. -/
theorem calculate_employee_commuting_emissions_nonneg
    (d n days : ℚ) (mode : String) (mb : Option ModeBreakdown)
    (hd : 0 ≤ d) (hn : 0 ≤ n) (hdays : 0 ≤ days)
    (hmb : ∀ b, mb = some b → 0 ≤ b.car ∧ 0 ≤ b.carpool ∧ 0 ≤ b.public_transit ∧
      0 ≤ b.walking_biking ∧ 0 ≤ b.wfh) :
    0 ≤ calculate_employee_commuting_emissions d n days mode mb := by
  have hmiles : 0 ≤ d * 2 * n * days := by positivity
  have hfac : ∀ k, 0 ≤ dictAt COMMUTING k :=
    fun k => dictAt_nonneg _ _ COMMUTING_values_nonneg
  cases mb with
  | none =>
      simp only [calculate_employee_commuting_emissions]
      exact mul_nonneg hmiles (hfac _)
  | some b =>
      obtain ⟨h1, h2, h3, h4, h5⟩ := hmb b rfl
      simp only [calculate_employee_commuting_emissions]
      split_ifs
      · have t1 := mul_nonneg (mul_nonneg hmiles h1) (hfac "car")
        have t2 := mul_nonneg (mul_nonneg hmiles h2) (hfac "carpool")
        have t3 := mul_nonneg (mul_nonneg hmiles h3) (hfac "public_transit")
        have t4 := mul_nonneg (mul_nonneg hmiles h4) (hfac "walking_biking")
        have t5 := mul_nonneg (mul_nonneg hmiles h5) (hfac "wfh")
        linarith
      · exact mul_nonneg hmiles (hfac _)

/-- Waste emissions are non-negative on non-negative inputs. -/
theorem calculate_waste_emissions_nonneg (a b c d : ℚ)
    (ha : 0 ≤ a) (hb : 0 ≤ b) (hc : 0 ≤ c) (hd : 0 ≤ d) :
    0 ≤ calculate_waste_emissions a b c d := by
  have e : calculate_waste_emissions a b c d
      = a * (458/1000) + b * (21/1000) + c * (23/1000) + d * (136/10000) := rfl
  rw [e]; positivity

/-- Purchased-goods emissions are non-negative on non-negative spend,
whatever the industry string. -/
theorem calculate_purchased_goods_emissions_nonneg (s : ℚ) (industry : String)
    (hs : 0 ≤ s) : 0 ≤ calculate_purchased_goods_emissions s industry := by
  simp only [calculate_purchased_goods_emissions]
  have hg : 0 ≤ dictGet PURCHASED_GOODS (industry_key industry) (dictAt PURCHASED_GOODS "default") :=
    dictGet_nonneg _ _ _ PURCHASED_GOODS_values_nonneg (by norm_num [dictAt, PURCHASED_GOODS])
  positivity

/-- C9: calculate_stationary_combustion at (0, 0, 0, 0) returns 0 and
calculate_mobile_combustion at (0, 0, 0) returns 0. -/
theorem C9_zero_inputs_give_zero :
    calculate_stationary_combustion 0 0 0 0 = 0 ∧
    calculate_mobile_combustion 0 0 0 = 0 := by
  constructor <;>
    norm_num [calculate_stationary_combustion, calculate_mobile_combustion]

/-- C4: calculate_refrigerant_emissions returns amount times the
global-warming potential of the type (0 for a type absent from the
table) divided by 1000, and in particular returns 0 on type "none"
with amount 100 and on type "R-134a" with amount 0. -/
theorem C4_refrigerant_formula (t : String) (a : ℚ) :
    calculate_refrigerant_emissions t a = a * dictGet REFRIGERANTS t 0 / 1000 ∧
    calculate_refrigerant_emissions "none" 100 = 0 ∧
    calculate_refrigerant_emissions "R-134a" 0 = 0 := by
  refine ⟨?_, ?_, ?_⟩
  · unfold calculate_refrigerant_emissions
    split
    · next h =>
        cases h with
        | inl h =>
            subst h
            have e : dictGet REFRIGERANTS "None" 0 = 0 := rfl
            rw [e]; ring
        | inr h => subst h; ring
    · rfl
  · simp only [calculate_refrigerant_emissions]
    rw [if_neg (not_or.mpr ⟨by decide, by norm_num⟩)]
    have e : dictGet REFRIGERANTS "none" 0 = 0 := rfl
    rw [e]; ring
  · simp only [calculate_refrigerant_emissions]
    rw [if_pos (Or.inr trivial)]

/-- C5: with source Grid Electricity, 1000 kWh in the Northeast US region
yields 1000 times 0.000254 divided by 1000 tonnes, and an unknown region
string falls back to the default factor 0.000431. -/
theorem C5_grid_region_factor_and_default :
    calculate_electricity_emissions 1000 "Northeast US" "Grid Electricity"
      = 1000 * (254/1000000) / 1000 ∧
    calculate_electricity_emissions 1000 "Unknown Region" "Grid Electricity"
      = 1000 * (431/1000000) / 1000 := by
  constructor
  · have h : region_key "Northeast US" = "northeast_us" := by decide
    simp only [calculate_electricity_emissions, h]
    rw [if_neg (by decide), if_neg (by decide)]
    have e : dictGet ELECTRICITY "northeast_us" (dictAt ELECTRICITY "default")
        = 254/1000000 := rfl
    rw [e]
  · have h : region_key "Unknown Region" = "unknown_region" := by decide
    simp only [calculate_electricity_emissions, h]
    rw [if_neg (by decide), if_neg (by decide)]
    have e : dictGet ELECTRICITY "unknown_region" (dictAt ELECTRICITY "default")
        = 431/1000000 := rfl
    rw [e]

/-- C6: for a single (non-mixed) commute mode the result is the total
annual round-trip mileage, distance times 2 times employees times days,
times the mode factor; in particular 10 miles, 100 employees, 230 days
by single-occupancy car gives 10*2*100*230*0.000348 tonnes. -/
theorem C6_single_mode_commuting (d n days : ℚ) (mode key : String)
    (mb : Option ModeBreakdown) (h : mode_mapping mode = some key) :
    calculate_employee_commuting_emissions d n days mode mb
      = d * 2 * n * days * dictAt COMMUTING key ∧
    calculate_employee_commuting_emissions 10 100 230 "Car (Single Occupancy)" none
      = 10 * 2 * 100 * 230 * (348/1000000) := by
  have hmix : mode ≠ "Mixed" := by
    intro e
    subst e
    exact Option.noConfusion h
  constructor
  · cases mb with
    | none =>
        simp only [calculate_employee_commuting_emissions]
        rw [h]
        rfl
    | some b =>
        simp only [calculate_employee_commuting_emissions]
        rw [if_neg hmix, h]
        rfl
  · rfl

/-- C7: mixed-mode commuting with a breakdown summing to 100% equals the
sum over the five modes of that mode's mileage share times its factor. -/
theorem C7_mixed_mode_distributes (d n days : ℚ) (mb : ModeBreakdown)
    (h : mb.car + mb.carpool + mb.public_transit + mb.walking_biking + mb.wfh = 1) :
    calculate_employee_commuting_emissions d n days "Mixed" (some mb)
      = (d * 2 * n * days * mb.car) * dictAt COMMUTING "car"
      + (d * 2 * n * days * mb.carpool) * dictAt COMMUTING "carpool"
      + (d * 2 * n * days * mb.public_transit) * dictAt COMMUTING "public_transit"
      + (d * 2 * n * days * mb.walking_biking) * dictAt COMMUTING "walking_biking"
      + (d * 2 * n * days * mb.wfh) * dictAt COMMUTING "wfh" := by
  simp only [calculate_employee_commuting_emissions]
  rw [if_pos trivial]

/-- C10: calling the commuting calculator with mode Mixed but no usable
breakdown (Python None or the empty dict, both falsy) silently takes the
single-mode branch and applies the car factor to the full mileage, so on
positive inputs the result is nonzero. -/
theorem C10_mixed_without_breakdown (d n days : ℚ)
    (hd : 0 < d) (hn : 0 < n) (hdays : 0 < days) :
    calculate_employee_commuting_emissions d n days "Mixed" none
      = d * 2 * n * days * (348/1000000) ∧
    calculate_employee_commuting_emissions d n days "Mixed" none ≠ 0 := by
  have e : calculate_employee_commuting_emissions d n days "Mixed" none
      = d * 2 * n * days * (348/1000000) := rfl
  refine ⟨e, ?_⟩
  rw [e]
  exact (by positivity : 0 < d * 2 * n * days * (348/1000000)).ne'

/-- Witness for C6 at 10 miles, 100 employees, 230 days, single-occupancy
car, no breakdown dictionary. -/
theorem C6_single_mode_commuting_witness :
    mode_mapping "Car (Single Occupancy)" = some "car" ∧
    calculate_employee_commuting_emissions 10 100 230 "Car (Single Occupancy)" none
      = 10 * 2 * 100 * 230 * dictAt COMMUTING "car" :=
  ⟨rfl, (C6_single_mode_commuting 10 100 230 "Car (Single Occupancy)" "car" none rfl).1⟩

/-- Witness for C7 at a 30/20/30/10/10 breakdown, which sums to 100%. -/
theorem C7_mixed_mode_distributes_witness :
    ((3:ℚ)/10) + 2/10 + 3/10 + 1/10 + 1/10 = 1 ∧
    calculate_employee_commuting_emissions 10 100 230 "Mixed"
        (some ⟨3/10, 2/10, 3/10, 1/10, 1/10⟩)
      = (10 * 2 * 100 * 230 * ((3:ℚ)/10)) * dictAt COMMUTING "car"
      + (10 * 2 * 100 * 230 * ((2:ℚ)/10)) * dictAt COMMUTING "carpool"
      + (10 * 2 * 100 * 230 * ((3:ℚ)/10)) * dictAt COMMUTING "public_transit"
      + (10 * 2 * 100 * 230 * ((1:ℚ)/10)) * dictAt COMMUTING "walking_biking"
      + (10 * 2 * 100 * 230 * ((1:ℚ)/10)) * dictAt COMMUTING "wfh" :=
  ⟨by norm_num,
    C7_mixed_mode_distributes 10 100 230 ⟨3/10, 2/10, 3/10, 1/10, 1/10⟩ (by norm_num)⟩

/-- Witness for C10 at 10 miles, 100 employees, 230 days. -/
theorem C10_mixed_without_breakdown_witness :
    (0:ℚ) < 10 ∧ (0:ℚ) < 100 ∧ (0:ℚ) < 230 ∧
    (calculate_employee_commuting_emissions 10 100 230 "Mixed" none
        = 10 * 2 * 100 * 230 * (348/1000000) ∧
      calculate_employee_commuting_emissions 10 100 230 "Mixed" none ≠ 0) :=
  ⟨by norm_num, by norm_num, by norm_num,
    C10_mixed_without_breakdown 10 100 230 (by norm_num) (by norm_num) (by norm_num)⟩

/-- C3 counterexample: the calculator compares the source selector against
the string "Renewable Energy", not "renewable", so a source string
"renewable" takes the grid branch: at 1000 kWh in region Asia it returns
the Asia grid factor result, not the renewable-factor result the claim
asserts for every region. -/
theorem C3_counterexample :
    calculate_electricity_emissions 1000 "Asia" "renewable"
      ≠ 1000 * (16/1000000) / 1000 := by
  have h : region_key "Asia" = "asia" := by decide
  have e : calculate_electricity_emissions 1000 "Asia" "renewable"
      = 1000 * (562/1000000) / 1000 := by
    simp only [calculate_electricity_emissions, h]
    rw [if_neg (by decide), if_neg (by decide)]
    have e2 : dictGet ELECTRICITY "asia" (dictAt ELECTRICITY "default")
        = 562/1000000 := rfl
    rw [e2]
  rw [e]
  norm_num

/-- C3 amended: for every kWh quantity and region string, source
"Renewable Energy" yields kwh times the source-level renewable factor
0.000016 divided by 1000 regardless of region, source "Mixed Sources"
yields kwh times 0.000320 divided by 1000 regardless of region, and any
other source string looks up the region-specific factor with the default
0.000431 used when the region key is absent. -/
theorem C3_amended_source_selectors (kwh : ℚ) (region src : String)
    (h1 : src ≠ "Renewable Energy") (h2 : src ≠ "Mixed Sources") :
    calculate_electricity_emissions kwh region "Renewable Energy"
      = kwh * (16/1000000) / 1000 ∧
    calculate_electricity_emissions kwh region "Mixed Sources"
      = kwh * (320/1000000) / 1000 ∧
    calculate_electricity_emissions kwh region src
      = kwh * dictGet ELECTRICITY (region_key region) (431/1000000) / 1000 := by
  refine ⟨?_, ?_, ?_⟩
  · simp only [calculate_electricity_emissions]
    rw [if_pos trivial]
    rfl
  · simp only [calculate_electricity_emissions]
    rw [if_neg (by decide), if_pos trivial]
    rfl
  · simp only [calculate_electricity_emissions]
    rw [if_neg h1, if_neg h2]
    rfl

/-- Witness for the amended C3 at 1000 kWh, an unknown region and the
Grid Electricity source. -/
theorem C3_amended_source_selectors_witness :
    ("Grid Electricity" : String) ≠ "Renewable Energy" ∧
    ("Grid Electricity" : String) ≠ "Mixed Sources" ∧
    calculate_electricity_emissions 1000 "Unknown Region" "Grid Electricity"
      = 1000 * dictGet ELECTRICITY (region_key "Unknown Region") (431/1000000) / 1000 :=
  ⟨by decide, by decide,
    (C3_amended_source_selectors 1000 "Unknown Region" "Grid Electricity"
      (by decide) (by decide)).2.2⟩

/-- C8: a categorical selector absent from its factor table never raises:
an unknown grid region uses the default electricity factor 0.000431, an
unknown refrigerant type contributes 0, an unknown commute mode falls back
to the car factor, and an unknown industry uses the default intensity 412
applied to spend in millions of USD. -/
theorem C8_unknown_selectors_fall_back
    (kwh a spend d n days : ℚ) (region rtype mode industry : String)
    (mb : Option ModeBreakdown)
    (hr : ELECTRICITY (region_key region) = none)
    (ht : REFRIGERANTS rtype = none)
    (hm : mode_mapping mode = none) (hmx : mode ≠ "Mixed")
    (hi : PURCHASED_GOODS (industry_key industry) = none) :
    calculate_electricity_emissions kwh region "Grid Electricity"
      = kwh * (431/1000000) / 1000 ∧
    calculate_refrigerant_emissions rtype a = 0 ∧
    calculate_employee_commuting_emissions d n days mode mb
      = d * 2 * n * days * (348/1000000) ∧
    calculate_purchased_goods_emissions spend industry = spend / 1000000 * 412 := by
  refine ⟨?_, ?_, ?_, ?_⟩
  · simp only [calculate_electricity_emissions, dictGet, hr, Option.getD_none]
    rw [if_neg (by decide), if_neg (by decide)]
    rfl
  · unfold calculate_refrigerant_emissions
    split
    · rfl
    · simp only [dictGet, ht, Option.getD_none]
      ring
  · cases mb with
    | none =>
        simp only [calculate_employee_commuting_emissions, hm, Option.getD_none]
        rfl
    | some b =>
        simp only [calculate_employee_commuting_emissions, hm, Option.getD_none]
        rw [if_neg hmx]
        rfl
  · simp only [calculate_purchased_goods_emissions, dictGet, hi, Option.getD_none]
    rfl

/-- Witness for C8 with selector strings absent from every factor table. -/
theorem C8_unknown_selectors_fall_back_witness :
    ELECTRICITY (region_key "Gotham City") = none ∧
    REFRIGERANTS "R-999" = none ∧
    mode_mapping "Hovercraft" = none ∧
    ("Hovercraft" : String) ≠ "Mixed" ∧
    PURCHASED_GOODS (industry_key "Space Mining") = none ∧
    (calculate_electricity_emissions 2000 "Gotham City" "Grid Electricity"
        = 2000 * (431/1000000) / 1000 ∧
      calculate_refrigerant_emissions "R-999" 5 = 0 ∧
      calculate_employee_commuting_emissions 10 100 230 "Hovercraft" none
        = 10 * 2 * 100 * 230 * (348/1000000) ∧
      calculate_purchased_goods_emissions 3000000 "Space Mining"
        = 3000000 / 1000000 * 412) :=
  ⟨rfl, rfl, rfl, by decide, rfl,
    C8_unknown_selectors_fall_back 2000 5 3000000 10 100 230
      "Gotham City" "R-999" "Hovercraft" "Space Mining" none
      rfl rfl rfl (by decide) rfl⟩

/-- C2: each of the eight calculator functions returns a non-negative
result on non-negative numeric inputs, non-negative mode-breakdown values
where applicable, and arbitrary selector strings. -/
theorem C2_all_calculators_nonneg
    (sng sdi spr sfo mga mdi mjf ra kwh bts btm btl btc bth cd ce cdy
      wl wr wc wi spend : ℚ)
    (rtype region src mode industry : String) (mb : Option ModeBreakdown)
    (hsng : 0 ≤ sng) (hsdi : 0 ≤ sdi) (hspr : 0 ≤ spr) (hsfo : 0 ≤ sfo)
    (hmga : 0 ≤ mga) (hmdi : 0 ≤ mdi) (hmjf : 0 ≤ mjf)
    (hra : 0 ≤ ra) (hkwh : 0 ≤ kwh)
    (hbts : 0 ≤ bts) (hbtm : 0 ≤ btm) (hbtl : 0 ≤ btl) (hbtc : 0 ≤ btc)
    (hbth : 0 ≤ bth)
    (hcd : 0 ≤ cd) (hce : 0 ≤ ce) (hcdy : 0 ≤ cdy)
    (hwl : 0 ≤ wl) (hwr : 0 ≤ wr) (hwc : 0 ≤ wc) (hwi : 0 ≤ wi)
    (hspend : 0 ≤ spend)
    (hmb : ∀ b, mb = some b → 0 ≤ b.car ∧ 0 ≤ b.carpool ∧
      0 ≤ b.public_transit ∧ 0 ≤ b.walking_biking ∧ 0 ≤ b.wfh) :
    0 ≤ calculate_stationary_combustion sng sdi spr sfo ∧
    0 ≤ calculate_mobile_combustion mga mdi mjf ∧
    0 ≤ calculate_refrigerant_emissions rtype ra ∧
    0 ≤ calculate_electricity_emissions kwh region src ∧
    0 ≤ calculate_business_travel_emissions bts btm btl btc bth ∧
    0 ≤ calculate_employee_commuting_emissions cd ce cdy mode mb ∧
    0 ≤ calculate_waste_emissions wl wr wc wi ∧
    0 ≤ calculate_purchased_goods_emissions spend industry :=
  ⟨calculate_stationary_combustion_nonneg sng sdi spr sfo hsng hsdi hspr hsfo,
    calculate_mobile_combustion_nonneg mga mdi mjf hmga hmdi hmjf,
    calculate_refrigerant_emissions_nonneg rtype ra hra,
    calculate_electricity_emissions_nonneg kwh region src hkwh,
    calculate_business_travel_emissions_nonneg bts btm btl btc bth
      hbts hbtm hbtl hbtc hbth,
    calculate_employee_commuting_emissions_nonneg cd ce cdy mode mb
      hcd hce hcdy hmb,
    calculate_waste_emissions_nonneg wl wr wc wi hwl hwr hwc hwi,
    calculate_purchased_goods_emissions_nonneg spend industry hspend⟩

/-- Witness for C2 at all-ones inputs, a mixed-mode 30/20/30/10/10
breakdown and concrete selector strings. -/
theorem C2_all_calculators_nonneg_witness :
    (0:ℚ) ≤ 1 ∧
    (0 ≤ calculate_stationary_combustion 1 1 1 1 ∧
      0 ≤ calculate_mobile_combustion 1 1 1 ∧
      0 ≤ calculate_refrigerant_emissions "R-410A" 1 ∧
      0 ≤ calculate_electricity_emissions 1 "Midwest US" "Grid Electricity" ∧
      0 ≤ calculate_business_travel_emissions 1 1 1 1 1 ∧
      0 ≤ calculate_employee_commuting_emissions 1 1 1 "Mixed"
        (some ⟨3/10, 2/10, 3/10, 1/10, 1/10⟩) ∧
      0 ≤ calculate_waste_emissions 1 1 1 1 ∧
      0 ≤ calculate_purchased_goods_emissions 1 "Retail") :=
  ⟨by norm_num,
    C2_all_calculators_nonneg 1 1 1 1 1 1 1 1 1 1 1 1 1 1 1 1 1 1 1 1 1 1
      "R-410A" "Midwest US" "Grid Electricity" "Mixed" "Retail"
      (some ⟨3/10, 2/10, 3/10, 1/10, 1/10⟩)
      (by norm_num) (by norm_num) (by norm_num) (by norm_num) (by norm_num)
      (by norm_num) (by norm_num) (by norm_num) (by norm_num) (by norm_num)
      (by norm_num) (by norm_num) (by norm_num) (by norm_num) (by norm_num)
      (by norm_num) (by norm_num) (by norm_num) (by norm_num) (by norm_num)
      (by norm_num) (by norm_num)
      (fun b hb => by
        cases hb
        exact ⟨by norm_num, by norm_num, by norm_num, by norm_num, by norm_num⟩)⟩

/-- C1: for every non-negative activity input, the aggregated result
satisfies the claimed invariant exactly over the rationals: the scopes
decompose into their categories, the total equals the sum of the three
scopes and also the sum of the eight categories, and every stored value
is non-negative. -/
theorem C1_aggregation_invariant_holds (i : ActivityInput) (h : NonnegInput i) :
    AggregationInvariant (calculate_footprint i) := by
  obtain ⟨h1, h2, h3, h4, h5, h6, h7, h8, h9, h10, h11, h12, h13, h14,
    h15, h16, h17, h18, h19, h20, h21, h22, h23, h24, h25, h26, h27⟩ := h
  have n1 := calculate_stationary_combustion_nonneg i.natural_gas i.diesel
    i.propane i.fuel_oil h1 h2 h3 h4
  have n2 := calculate_mobile_combustion_nonneg i.gasoline i.diesel_vehicles
    i.jet_fuel h5 h6 h7
  have n3 := calculate_refrigerant_emissions_nonneg i.refrigerant_type
    i.refrigerant_amount h8
  have n4 := calculate_electricity_emissions_nonneg i.electricity
    i.grid_region i.electricity_source h9
  have n5 := calculate_business_travel_emissions_nonneg i.air_travel_short
    i.air_travel_medium i.air_travel_long i.car_rental i.hotel_stays
    h10 h11 h12 h13 h14
  have n6 := calculate_employee_commuting_emissions_nonneg
    i.avg_commute_distance i.num_employees i.commute_days_per_year
    i.commute_mode
    (some
      { car := if i.commute_mode = "Mixed" then i.car_percent / 100
          else if i.commute_mode = "Car (Single Occupancy)" then 1 else 0
        carpool := if i.commute_mode = "Mixed" then i.carpool_percent / 100
          else if i.commute_mode = "Carpool" then 1 else 0
        public_transit := if i.commute_mode = "Mixed" then i.public_transit_percent / 100
          else if i.commute_mode = "Public Transit" then 1 else 0
        walking_biking := if i.commute_mode = "Mixed" then i.walking_biking_percent / 100
          else if i.commute_mode = "Walking/Biking" then 1 else 0
        wfh := if i.commute_mode = "Mixed" then i.wfh_percent / 100
          else if i.commute_mode = "Work from Home" then 1 else 0 })
    h15 h16 h17
    (by
      intro b hb
      cases hb
      refine ⟨?_, ?_, ?_, ?_, ?_⟩ <;> (split_ifs <;> positivity))
  have n7 := calculate_waste_emissions_nonneg i.landfill_waste i.recycled_waste
    i.composted_waste i.incinerated_waste h23 h24 h25 h26
  have n8 := calculate_purchased_goods_emissions_nonneg i.purchased_goods
    i.industry h27
  have s1t := add_nonneg (add_nonneg n1 n2) n3
  have s3t := add_nonneg (add_nonneg (add_nonneg n5 n6) n7) n8
  refine ⟨rfl, rfl, rfl, rfl, ?_, n1, n2, n3, n4, n5, n6, n7, n8,
    s1t, n4, s3t, add_nonneg (add_nonneg s1t n4) s3t⟩
  simp only [calculate_footprint]
  ring

/-- Witness for C1 at the concrete example activity record. -/
theorem C1_aggregation_invariant_holds_witness :
    NonnegInput exampleInput ∧
    AggregationInvariant (calculate_footprint exampleInput) :=
  ⟨by norm_num [NonnegInput, exampleInput],
    C1_aggregation_invariant_holds exampleInput
      (by norm_num [NonnegInput, exampleInput])⟩

end CarbonTrack
